import Mathlib

/-!
Verification of the auto-industry core runtime against its design
specification.  The definitions below are shallow embeddings of the
TypeScript sources: the Event Bus (`src/packages/core/src/event-bus`,
class `EventBus extends EventEmitter`), the Device Manager
(`src/packages/core/src/device-manager`, class `DeviceManager`), the
generic Connection Pool (`src/packages/core/src/connection-pool`, class
`ConnectionPool`) and the Modbus adapter
(`src/packages/adapters/modbus/src/modbus-adapter.ts`, class
`ModbusAdapter`).  Stateful methods become explicit state-passing
functions; fallible methods return `Except`; Node's `EventEmitter`
delivery and `setInterval` timer semantics are embedded explicitly where
a claim depends on them.
-/

namespace EventBus

/-- One registered subscriber callback.  `id` identifies the callback;
`throws` records whether invoking it raises an exception (Node's
`EventEmitter` invokes listeners synchronously, so a raised exception
propagates out of `emit`). -/
structure Listener where
  id : Nat
  throws : Bool
deriving DecidableEq

/-- The `EventEmitter` listener registry: pairs of event name (topic
string) and listener, in registration order.  `on(topic, cb)` appends. -/
abbrev Registry := List (String × Listener)

/-- Listeners registered for one event name, in registration order. -/
def listenersOf (r : Registry) (topic : String) : List Listener :=
  r.filterMap (fun p => if p.1 = topic then some p.2 else none)

/-- `EventEmitter.on` (modelled as `onTopic`): append a listener for the event name. -/
def onTopic (r : Registry) (topic : String) (l : Listener) : Registry :=
  r ++ [(topic, l)]

/-- Topic string built by the source for the exact scope:
`data:deviceId:address`. -/
def dataTopicAddr (deviceId address : String) : String :=
  "data:" ++ deviceId ++ ":" ++ address

/-- Topic string built by the source for the device scope:
`data:deviceId`. -/
def dataTopicDev (deviceId : String) : String :=
  "data:" ++ deviceId

/-- Topic string for the global scope: `data`. -/
def dataTopicAll : String := "data"

/-- `EventBus.onDataAddress(deviceId, address, cb)`:
`this.on(data:deviceId:address, cb)`. -/
def onDataAddress (r : Registry) (deviceId address : String) (l : Listener) : Registry :=
  onTopic r (dataTopicAddr deviceId address) l

/-- `EventBus.onData(deviceId, cb)`: `this.on(data:deviceId, cb)`. -/
def onData (r : Registry) (deviceId : String) (l : Listener) : Registry :=
  onTopic r (dataTopicDev deviceId) l

/-- `EventBus.onAllData(cb)`: `this.on(data, cb)`. -/
def onAllData (r : Registry) (l : Listener) : Registry :=
  onTopic r dataTopicAll l

/-- Invoke a listener list in order, as `EventEmitter.emit` does:
synchronously, stopping when a listener throws.  Returns the ids of the
listeners that were invoked and, if one threw, its id (the exception
that propagates out of `emit`). -/
def invokeAll : List Listener → List Nat × Option Nat
  | [] => ([], none)
  | l :: rest =>
    if l.throws then ([l.id], some l.id)
    else
      let r := invokeAll rest
      (l.id :: r.1, r.2)

/-- Result of one `emit` call (or of `emitData`, which chains up to
three `emit` calls): the invoked listener ids, the propagated exception
if a listener threw, and the boolean `emit` returns when no listener
throws (`true` iff the event had listeners). -/
structure EmitResult where
  invoked : List Nat
  exn : Option Nat
  retVal : Bool
deriving DecidableEq

/-- `EventEmitter.emit(topic, event)`: invoke the topic's listeners in
order; return `true` iff the event had listeners. -/
def emit (r : Registry) (topic : String) : EmitResult :=
  let ls := listenersOf r topic
  let run := invokeAll ls
  ⟨run.1, run.2, !ls.isEmpty⟩

/-- `EventBus.emitData(event)`: the source returns
`this.emit(data:id:addr, e) || this.emit(data:id, e) || this.emit(data, e)`.
JavaScript `||` short-circuits, so the device-scope emit runs only when
the exact-scope emit returned `false` (had no listeners), and the
global emit only when both previous emits returned `false`; an
exception from a listener aborts the whole chain. -/
def emitData (r : Registry) (deviceId address : String) : EmitResult :=
  let r1 := emit r (dataTopicAddr deviceId address)
  if r1.exn.isSome || r1.retVal then r1
  else
    let r2 := emit r (dataTopicDev deviceId)
    if r2.exn.isSome || r2.retVal then r2
    else emit r dataTopicAll

/-- Bus with one exact-scope subscriber for `(d1, a1)` (id 1) and one
global subscriber (id 2): the configuration of the spec's own
three-scope delivery scenario. -/
def c1bus : Registry :=
  onAllData (onDataAddress [] "d1" "a1" ⟨1, false⟩) ⟨2, false⟩

end EventBus

namespace EventBus

/-- Bus with two global subscribers where the first one's callback
throws (id 1 throws, id 2 is well behaved). -/
def c7bus : Registry :=
  onAllData (onAllData [] ⟨1, true⟩) ⟨2, false⟩

/-- Claim C1: `emitData` is required to attempt delivery at all three
scopes, so a global subscriber receives every device's data event.  On
the bus `c1bus` (one exact-address subscriber, id 1, and one global
subscriber, id 2), `emitData` for `(d1, a1)` invokes only listener 1:
the `||` chain short-circuits after the exact-scope `emit` returns
`true`, so the global subscriber (id 2) never receives the event, and
no exception occurred that could explain the omission. -/
theorem c1_emitData_short_circuits_global :
    (emitData c1bus "d1" "a1").invoked = [1] ∧
      2 ∉ (emitData c1bus "d1" "a1").invoked ∧
      (emitData c1bus "d1" "a1").exn = none := by
  decide

/-- Claim C7 counterexample: delivery is claimed to be fire-and-forget,
with a throwing subscriber neither blocking other subscribers nor
crashing the publisher.  On `c7bus` (two global subscribers, the first
of which throws), `emitData` invokes only listener 1 and the exception
propagates out of the emit call: listener 2 never receives the event
and the publisher is not protected. -/
theorem c7_throwing_listener_blocks_delivery :
    (emitData c7bus "d1" "a1").invoked = [1] ∧
      2 ∉ (emitData c7bus "d1" "a1").invoked ∧
      (emitData c7bus "d1" "a1").exn = some 1 := by
  decide

/-- Claim C7 (amended): `EventBus` inherits `EventEmitter`'s synchronous
delivery unprotected, so when the invoked listener list is
`pre ++ t :: post` with every listener in `pre` well behaved and `t`
throwing, exactly the listeners in `pre` and `t` are invoked — every
listener registered after the throwing one receives nothing — and the
exception propagates out of the emit call to the publisher. -/
theorem c7_throw_stops_remaining_listeners (pre post : List Listener) (t : Listener)
    (ht : t.throws = true) (hpre : ∀ l ∈ pre, l.throws = false) :
    (invokeAll (pre ++ t :: post)).1 = pre.map Listener.id ++ [t.id] ∧
      (invokeAll (pre ++ t :: post)).2 = some t.id := by
  induction pre with
  | nil => simp [invokeAll, ht]
  | cons l rest ih =>
    have hl : l.throws = false := hpre l (by simp)
    have hrest : ∀ x ∈ rest, x.throws = false := fun x hx => hpre x (by simp [hx])
    have h := ih hrest
    simp [invokeAll, hl, h.1, h.2]

/-- Witness for the amended C7 theorem at a concrete listener list:
`pre = [⟨3, false⟩]`, throwing listener `⟨1, true⟩`,
`post = [⟨2, false⟩]`. -/
theorem c7_throw_stops_remaining_listeners_witness :
    (invokeAll [⟨3, false⟩, ⟨1, true⟩, ⟨2, false⟩]).1 = [3, 1] ∧
      (invokeAll [⟨3, false⟩, ⟨1, true⟩, ⟨2, false⟩]).2 = some 1 :=
  c7_throw_stops_remaining_listeners [⟨3, false⟩] [⟨2, false⟩] ⟨1, true⟩ rfl
    (by intro l hl; simp at hl; simp [hl])

end EventBus

namespace JsMap

/-- A string-keyed map in insertion order, embedding a JavaScript `Map`. -/
abbrev Table (α : Type) := List (String × α)

/-- `Map.get(k)`: the value stored under `k`, if any. -/
def lookup {α : Type} (t : Table α) (k : String) : Option α :=
  (t.find? (fun p => p.1 == k)).map (fun p => p.2)

/-- `Map.set(k, v)`: overwrite in place if the key exists (JavaScript
`Map` keeps insertion order), otherwise append. -/
def setEntry {α : Type} (t : Table α) (k : String) (v : α) : Table α :=
  if t.any (fun p => p.1 == k) then
    t.map (fun p => if p.1 == k then (k, v) else p)
  else t ++ [(k, v)]

/-- `Map.delete(k)`: drop the entry stored under `k`. -/
def removeEntry {α : Type} (t : Table α) (k : String) : Table α :=
  t.filter (fun p => !(p.1 == k))

/-- Helper: a deleted key is no longer found. -/
theorem lookup_removeEntry {α : Type} (t : Table α) (k : String) :
    lookup (removeEntry t k) k = none := by
  induction t with
  | nil => rfl
  | cons p rest ih =>
    by_cases hp : p.1 == k
    · simpa [removeEntry, hp] using ih
    · simp only [removeEntry, List.filter_cons, hp, Bool.not_false, if_true]
      simp only [lookup, List.find?, hp, removeEntry] at ih ⊢
      exact ih

/-- Helper: `setEntry` on a key not yet present prepends nothing —
the map grows by the new pair at the front of the untouched tail. -/
theorem setEntry_cons_ne {α : Type} (p : String × α) (rest : Table α) (k : String) (v : α)
    (hp : (p.1 == k) = false) :
    setEntry (p :: rest) k v = p :: setEntry rest k v := by
  have hne : p.1 ≠ k := by simpa using hp
  by_cases hr : rest.any (fun q => q.1 == k)
  · simp [setEntry, hr, hp, hne]
  · simp [setEntry, hr, hp, hne]

/-- Helper: after `setEntry t k v`, looking up `k` yields `v`. -/
theorem lookup_setEntry_self {α : Type} (t : Table α) (k : String) (v : α) :
    lookup (setEntry t k v) k = some v := by
  induction t with
  | nil => simp [setEntry, lookup, List.find?]
  | cons p rest ih =>
    by_cases hp : p.1 == k
    · have hany : (p :: rest).any (fun q => q.1 == k) = true := by
        simp [List.any_cons, hp]
      simp only [setEntry, hany, if_true, List.map_cons, hp, if_pos]
      simp [lookup, List.find?]
    · rw [setEntry_cons_ne p rest k v (by simpa using hp)]
      simpa [lookup, List.find?, hp] using ih

end JsMap

namespace DeviceManager

open JsMap

/-- One `ProtocolAdapter` instance as the Device Manager observes it:
an identity, the value its `isConnected()` reports, and the outcome of
its `read`/`write` for each address (`Except.error e` embeds a rejected
promise carrying the error `e`).  Reads return `Nat` values; addresses
and error messages are strings. -/
structure Adapter where
  aid : Nat
  connected : Bool
  readResult : String → Except String Nat
  writeResult : String → Nat → Except String Unit

/-- A `ProtocolAdapterFactory` together with the behaviour of the
adapter it creates: `newAid` is the fresh adapter's identity and
`connectOk` tells whether that adapter's `connect(config)` resolves
(`true`) or rejects (`false`). -/
structure Factory where
  newAid : Nat
  connectOk : Bool
  reads : String → Except String Nat
  writes : String → Nat → Except String Unit

/-- The `DeviceManager` fields: `configs` maps a deviceId to its
protocol tag (the only config field `connectDevice` reads), `factories`
maps a protocol to its registered factory, and `adapters` is the
registry of stored adapter instances. -/
structure MgrState where
  configs : Table String
  factories : Table Factory
  adapters : Table Adapter

/-- Errors thrown by `DeviceManager.connectDevice`. -/
inductive MgrError
  | configNotFound
  | protocolNotRegistered
  | connectionError
deriving DecidableEq

/-- Result of one `connectDevice` call: the returned adapter or thrown
error, the adapter registry afterwards (the only state the method
mutates), and how many underlying `adapter.connect` calls were made. -/
structure ConnectResult where
  result : Except MgrError Adapter
  adapters : Table Adapter
  connectCalls : Nat

/-- Tail of `connectDevice` from the factory lookup on: throw if no
factory is registered for the protocol; otherwise create a fresh
adapter, `await adapter.connect(config)` (one underlying connect call),
and only when it resolves store the adapter with
`this.adapters.set(deviceId, adapter)`; a rejected connect propagates
before the `set` line is reached. -/
def connectFresh (st : MgrState) (deviceId proto : String) : ConnectResult :=
  match lookup st.factories proto with
  | none => ⟨.error .protocolNotRegistered, st.adapters, 0⟩
  | some f =>
    if f.connectOk then
      let a : Adapter := ⟨f.newAid, true, f.reads, f.writes⟩
      ⟨.ok a, setEntry st.adapters deviceId a, 1⟩
    else ⟨.error .connectionError, st.adapters, 1⟩

/-- `DeviceManager.connectDevice(deviceId)` run to completion with no
other call interleaved: throw if the config is missing; return the
existing adapter unchanged if it reports connected; otherwise proceed
through `connectFresh`. -/
def connectDevice (st : MgrState) (deviceId : String) : ConnectResult :=
  match lookup st.configs deviceId with
  | none => ⟨.error .configNotFound, st.adapters, 0⟩
  | some proto =>
    match lookup st.adapters deviceId with
    | some a => if a.connected then ⟨.ok a, st.adapters, 0⟩ else connectFresh st deviceId proto
    | none => connectFresh st deviceId proto

/-- The registered adapter for `deviceId` when it reports connected
(the `existing && existing.isConnected()` test in the source). -/
def existingConnected (st : MgrState) (deviceId : String) : Option Adapter :=
  match lookup st.adapters deviceId with
  | some a => if a.connected then some a else none
  | none => none

/-- Outcome of the first synchronous segment of `connectDevice`: the
code from entry up to issuing `await adapter.connect(config)`.  This
segment only reads the manager's maps (the registry `set` happens after
the await), so it either completes without any underlying connect call
(`done`) or suspends with a connect call in flight (`awaitingConnect`). -/
inductive Phase1
  | done (r : Except MgrError Adapter)
  | awaitingConnect (f : Factory)

/-- First synchronous segment of `connectDevice`, mirroring the source
order: config lookup, connected-adapter check, factory lookup, then
`factory()` and `adapter.connect` (the suspension point). -/
def connectPhase1 (st : MgrState) (deviceId : String) : Phase1 :=
  match lookup st.configs deviceId with
  | none => .done (.error .configNotFound)
  | some proto =>
    match existingConnected st deviceId with
    | some a => .done (.ok a)
    | none =>
      match lookup st.factories proto with
      | none => .done (.error .protocolNotRegistered)
      | some f => .awaitingConnect f

/-- Underlying connect calls issued by one first segment. -/
def phase1Connects : Phase1 → Nat
  | .done _ => 0
  | .awaitingConnect _ => 1

/-- Underlying `adapter.connect` calls issued when two `connectDevice`
calls for the same `deviceId` overlap: on the event loop the second
call's first segment runs while the first call is suspended on its
`await adapter.connect(config)`, and since that first segment never
mutates the adapters map, the second call reads the same registry state
and decides independently whether to issue its own connect. -/
def concurrentConnects (st : MgrState) (deviceId : String) : Nat :=
  phase1Connects (connectPhase1 st deviceId) + phase1Connects (connectPhase1 st deviceId)

/-- A factory for protocol `modbus` whose adapter (id 5) connects
successfully and serves every read and write. -/
def okFactory : Factory :=
  ⟨5, true, fun _ => .ok 0, fun _ _ => .ok ()⟩

/-- Manager state with device `d1` configured for `modbus`, the factory
registered, and no adapter stored yet. -/
def c2state : MgrState :=
  ⟨[("d1", "modbus")], [("modbus", okFactory)], []⟩

/-- Claim C2 counterexample: concurrent `connectDevice` calls for one
`deviceId` are claimed to serialize, with exactly one underlying
connect call.  From `c2state` (device configured, factory registered,
no adapter stored), two overlapping `connectDevice("d1")` calls each
pass the connected-adapter check before either stores an adapter, so
two underlying `adapter.connect` calls are issued, not one. -/
theorem c2_concurrent_connects_not_serialized :
    concurrentConnects c2state "d1" = 2 ∧ concurrentConnects c2state "d1" ≠ 1 := by
  constructor
  · rfl
  · intro h
    simp [concurrentConnects, connectPhase1, c2state, existingConnected, lookup,
      okFactory, phase1Connects] at h

/-- Claim C2 (amended): `connectDevice` does not serialize overlapping
calls.  Whenever the device has a config, its protocol has a registered
factory, and no stored adapter reports connected, each of two
overlapping `connectDevice` calls issues its own underlying
`adapter.connect` call — two connect calls in total — because the
registry entry is stored only after the awaited connect resolves. -/
theorem c2_overlapping_calls_issue_two_connects (st : MgrState) (deviceId proto : String)
    (f : Factory) (hc : lookup st.configs deviceId = some proto)
    (hf : lookup st.factories proto = some f)
    (ha : existingConnected st deviceId = none) :
    concurrentConnects st deviceId = 2 := by
  simp [concurrentConnects, connectPhase1, hc, hf, ha, phase1Connects]

/-- Witness for the amended C2 theorem at the concrete state
`c2state`. -/
theorem c2_overlapping_calls_issue_two_connects_witness :
    concurrentConnects c2state "d1" = 2 :=
  c2_overlapping_calls_issue_two_connects c2state "d1" "modbus" okFactory rfl rfl rfl

/-- Helper: when `connectFresh` throws, the adapter registry is exactly
what it was before — both error exits (`protocolNotRegistered` before
the factory call, a rejected `connect` before the `set` line) return
`st.adapters` untouched. -/
theorem connectFresh_error_adapters (st : MgrState) (deviceId proto : String) (e : MgrError)
    (he : (connectFresh st deviceId proto).result = .error e) :
    (connectFresh st deviceId proto).adapters = st.adapters := by
  unfold connectFresh at he ⊢
  cases hf : lookup st.factories proto with
  | none => simp [hf]
  | some f =>
    simp only [hf] at he ⊢
    cases hk : f.connectOk <;> simp [hk] at he ⊢

/-- An adapter that was connected once but whose transport has since
closed, so `isConnected()` now reports `false` (the MQTT adapter, for
example, sets its status to `disconnected` on the client's `close`
event while the manager still holds the registry entry). -/
def staleAdapter : Adapter :=
  ⟨7, false, fun _ => Except.ok 0, fun _ _ => Except.ok ()⟩

/-- A factory for protocol `modbus` whose adapter's `connect` rejects. -/
def failFactory : Factory :=
  ⟨8, false, fun _ => Except.ok 0, fun _ _ => Except.ok ()⟩

/-- Manager state holding a stale (disconnected) adapter entry for
device `x`, whose protocol's factory produces adapters that fail to
connect. -/
def c3state : MgrState :=
  ⟨[("x", "modbus")], [("modbus", failFactory)], [("x", staleAdapter)]⟩

/-- Manager state for device `x` with a failing factory and no adapter
entry yet. -/
def c3cleanState : MgrState :=
  ⟨[("x", "modbus")], [("modbus", failFactory)], []⟩

/-- Claim C3 counterexample: a failed connect is claimed to leave no
adapter entry for the deviceId.  From `c3state`, where a stale
disconnected adapter entry for `x` survives from an earlier successful
connect, a reconnect attempt fails (the factory's adapter rejects its
`connect`) yet an adapter entry for `x` still exists afterwards. -/
theorem c3_failed_reconnect_keeps_stale_entry :
    (connectDevice c3state "x").result = .error .connectionError ∧
      (lookup (connectDevice c3state "x").adapters "x").isSome = true :=
  ⟨rfl, rfl⟩

/-- Claim C3 (amended): `connectDevice` stores an adapter only on a
successful connect and on any failure leaves the registry exactly as it
was — so when no entry existed before the call (a first connect), none
exists after a failure and the retry starts clean; a stale entry from
an earlier successful connect, however, survives a failed reconnect. -/
theorem c3_failure_leaves_registry_unchanged (st : MgrState) (deviceId : String)
    (h : ∃ e, (connectDevice st deviceId).result = Except.error e) :
    (connectDevice st deviceId).adapters = st.adapters ∧
      (lookup st.adapters deviceId = none →
        lookup (connectDevice st deviceId).adapters deviceId = none) := by
  obtain ⟨e, he⟩ := h
  have hA : (connectDevice st deviceId).adapters = st.adapters := by
    unfold connectDevice at he ⊢
    cases hc : lookup st.configs deviceId with
    | none => simp [hc]
    | some proto =>
      simp only [hc] at he ⊢
      cases ha : lookup st.adapters deviceId with
      | none =>
        simp only [ha] at he ⊢
        exact connectFresh_error_adapters st deviceId proto e he
      | some a =>
        simp only [ha] at he ⊢
        cases hk : a.connected with
        | true => simp [hk] at he
        | false =>
          simp only [hk, Bool.false_eq_true, if_false] at he ⊢
          exact connectFresh_error_adapters st deviceId proto e he
  exact ⟨hA, fun hn => by rw [hA]; exact hn⟩

/-- Witness for the amended C3 theorem: from `c3cleanState` (no adapter
entry for `x`), the failing connect throws and afterwards the registry
is unchanged and still has no entry for `x`. -/
theorem c3_failure_leaves_registry_unchanged_witness :
    (∃ e, (connectDevice c3cleanState "x").result = Except.error e) ∧
      ((connectDevice c3cleanState "x").adapters = c3cleanState.adapters ∧
        (lookup c3cleanState.adapters "x" = none →
          lookup (connectDevice c3cleanState "x").adapters "x" = none)) :=
  ⟨⟨.connectionError, rfl⟩,
    c3_failure_leaves_registry_unchanged c3cleanState "x" ⟨.connectionError, rfl⟩⟩

/-- Result of `DeviceManager.read`: the value returned or error thrown
to the caller, together with the error events published on the Event
Bus during the call.  The source body is
`return adapter.read(address)` with no `try`/`catch` and no
`eventBus.emitError` call, so a rejected adapter read propagates as-is
and no bus event is emitted. -/
structure ReadOutcome where
  result : Except String Nat
  emittedErrors : List String

/-- Result of `DeviceManager.write`, observed like `ReadOutcome`. -/
structure WriteOutcome where
  result : Except String Unit
  emittedErrors : List String

/-- `DeviceManager.read(deviceId, address)`: throw if no adapter is
registered for the id, otherwise delegate to the adapter. -/
def mgrRead (st : MgrState) (deviceId address : String) : ReadOutcome :=
  match lookup st.adapters deviceId with
  | none => ⟨.error ("Device not connected: " ++ deviceId), []⟩
  | some a => ⟨a.readResult address, []⟩

/-- `DeviceManager.write(deviceId, address, value)`: throw if no
adapter is registered for the id, otherwise delegate to the adapter. -/
def mgrWrite (st : MgrState) (deviceId address : String) (v : Nat) : WriteOutcome :=
  match lookup st.adapters deviceId with
  | none => ⟨.error ("Device not connected: " ++ deviceId), []⟩
  | some a => ⟨a.writeResult address v, []⟩

/-- A registered adapter whose reads and writes all fail. -/
def failingAdapter : Adapter :=
  ⟨3, true, fun _ => Except.error "Modbus read failed",
    fun _ _ => Except.error "Modbus write failed"⟩

/-- Manager state with the failing adapter registered for `d1`. -/
def c4state : MgrState :=
  ⟨[("d1", "modbus")], [], [("d1", failingAdapter)]⟩

/-- Claim C4 counterexample: for a failing read the manager is claimed
to forward the adapter's error to the caller and additionally publish
an error event on the Event Bus.  At `c4state`, a failing read does
forward the adapter's error unchanged, but the list of error events
published on the bus during the call is empty. -/
theorem c4_failing_read_publishes_no_error_event :
    (mgrRead c4state "d1" "HR:0").result = .error "Modbus read failed" ∧
      (mgrRead c4state "d1" "HR:0").emittedErrors = [] :=
  ⟨rfl, rfl⟩

/-- Claim C4 (amended): the Device Manager forwards a failing read's or
write's adapter error to the caller as-is, but publishes no error event
on the Event Bus for it — error events arise only from an adapter
invoking the `onError` callback wired at connect time, which the Modbus
adapter's no-op `onError` never does. -/
theorem c4_errors_forwarded_not_published (st : MgrState) (deviceId address : String)
    (a : Adapter) (e : String) (ha : lookup st.adapters deviceId = some a) :
    (a.readResult address = .error e → mgrRead st deviceId address = ⟨.error e, []⟩) ∧
      (∀ v, a.writeResult address v = .error e →
        mgrWrite st deviceId address v = ⟨.error e, []⟩) := by
  constructor
  · intro hr
    simp [mgrRead, ha, hr]
  · intro v hw
    simp [mgrWrite, ha, hw]

/-- Witness for the amended C4 theorem at `c4state`, for both a failing
read and a failing write. -/
theorem c4_errors_forwarded_not_published_witness :
    mgrRead c4state "d1" "HR:0" = ⟨.error "Modbus read failed", []⟩ ∧
      mgrWrite c4state "d1" "HR:0" 1 = ⟨.error "Modbus write failed", []⟩ :=
  ⟨(c4_errors_forwarded_not_published c4state "d1" "HR:0" failingAdapter
      "Modbus read failed" rfl).1 rfl,
    (c4_errors_forwarded_not_published c4state "d1" "HR:0" failingAdapter
      "Modbus write failed" rfl).2 1 rfl⟩

end DeviceManager

namespace ConnectionPool

/-- Outcome of the supplied `connectionValidator` for one resource:
its promise resolves `true` (`valid`), resolves `false` (`invalid`),
or rejects (`vthrow`). -/
inductive VRes
  | valid
  | invalid
  | vthrow
deriving DecidableEq

/-- Whether a validator outcome is a rejection. -/
def isThrow : VRes → Bool
  | .vthrow => true
  | _ => false

/-- One `PoolConnection`: its id and `inUse` flag (`createdAt` and
`lastUsed` play no role in the claims about `acquire`/`release`). -/
structure PoolConn where
  cid : Nat
  inUse : Bool
deriving DecidableEq

/-- The `ConnectionPool` state: the `pool` map in insertion order, the
length of `waitQueue`, and the id supply for created resources. -/
structure PoolState where
  conns : List PoolConn
  waiting : Nat
  nextId : Nat
deriving DecidableEq

/-- The idle-resource scan at the top of `acquire`: walk the pool in
order; skip in-use resources; for an idle one run the validator — if it
resolves `true`, mark the resource in use and return it at once (the
rest of the pool is not scanned); if it resolves `false`, the `if`
falls through and the loop continues with the resource left in place;
if it rejects, the `catch` deletes the resource and the loop
continues.  Returns the acquired resource id, if any, and the pool
contents afterwards. -/
def scan (v : Nat → VRes) : List PoolConn → Option Nat × List PoolConn
  | [] => (none, [])
  | c :: rest =>
    if c.inUse then
      let r := scan v rest
      (r.1, c :: r.2)
    else
      match v c.cid with
      | .valid => (some c.cid, { c with inUse := true } :: rest)
      | .invalid =>
        let r := scan v rest
        (r.1, c :: r.2)
      | .vthrow =>
        let r := scan v rest
        (r.1, r.2)

/-- What one `acquire` call produced: a resource id, or a place in the
wait queue (whose timeout later rejects with the acquire-timeout
error). -/
inductive AcqResult
  | acquired (cid : Nat)
  | enqueued
deriving DecidableEq

/-- Rest of `acquire` once the scan result is known: if the scan found
a valid idle resource, return it; otherwise create a new resource
(marked in use) when the pool is below `maxConnections`, else push the
caller onto `waitQueue`. -/
def acquireAux (st : PoolState) (maxC : Nat) (r : Option Nat × List PoolConn) :
    AcqResult × PoolState :=
  match r with
  | (some cid, conns2) => (.acquired cid, { st with conns := conns2 })
  | (none, conns2) =>
    if conns2.length < maxC then
      (.acquired st.nextId,
        { st with conns := conns2 ++ [⟨st.nextId, true⟩], nextId := st.nextId + 1 })
    else (.enqueued, { st with conns := conns2, waiting := st.waiting + 1 })

/-- `ConnectionPool.acquire()` run to completion with no other
operation interleaved. -/
def acquire (v : Nat → VRes) (maxC : Nat) (st : PoolState) : AcqResult × PoolState :=
  acquireAux st maxC (scan v st.conns)

/-- `ConnectionPool.release(poolConn)`: mark the resource idle; then,
if the wait queue is non-empty, mark it in use again and hand it to the
oldest waiter (net effect: the resource stays in use and the queue
shrinks by one). -/
def release (st : PoolState) (cid : Nat) : PoolState :=
  if st.waiting > 0 then
    { st with
      conns := st.conns.map (fun c => if c.cid = cid then { c with inUse := true } else c),
      waiting := st.waiting - 1 }
  else
    { st with
      conns := st.conns.map (fun c => if c.cid = cid then { c with inUse := false } else c) }

/-- Pool state after `initialize()`: `minConnections` idle resources
(ids `0..minC-1`), an empty wait queue. -/
def initPool (minC : Nat) : PoolState :=
  ⟨(List.range minC).map (fun i => ⟨i, false⟩), 0, minC⟩

/-- Number of pool resources currently marked in use. -/
def inUseCount (st : PoolState) : Nat :=
  (st.conns.filter (fun c => c.inUse)).length

/-- One pool operation: an `acquire` (run to completion) or a
`release` of the resource with the given id. -/
inductive PoolOp
  | acq
  | rel (cid : Nat)

/-- Apply one pool operation to the state. -/
def step (v : Nat → VRes) (maxC : Nat) (st : PoolState) : PoolOp → PoolState
  | .acq => (acquire v maxC st).2
  | .rel cid => release st cid

/-- Apply a sequence of pool operations from left to right. -/
def runOps (v : Nat → VRes) (maxC : Nat) (st : PoolState) (ops : List PoolOp) : PoolState :=
  ops.foldl (step v maxC) st

/-- Helper: the scan never grows the pool (it only marks, keeps or
deletes resources). -/
theorem scan_length_le (v : Nat → VRes) (l : List PoolConn) :
    (scan v l).2.length ≤ l.length := by
  induction l with
  | nil => simp [scan]
  | cons c rest ih =>
    cases hc : c.inUse with
    | true => simp [scan, hc]; omega
    | false =>
      cases hv : v c.cid with
      | valid => simp [scan, hc, hv]
      | invalid => simp [scan, hc, hv]; omega
      | vthrow => simp [scan, hc, hv]; omega

/-- Helper: `acquireAux` keeps the pool within `maxConnections` when
the scanned pool already is. -/
theorem acquireAux_length (st : PoolState) (maxC : Nat) (r : Option Nat)
    (conns2 : List PoolConn) (h2 : conns2.length ≤ maxC) :
    ((acquireAux st maxC (r, conns2)).2).conns.length ≤ maxC := by
  cases r with
  | none =>
    by_cases hl : conns2.length < maxC <;> simp [acquireAux, hl] <;> omega
  | some cid => simpa [acquireAux] using h2

/-- Helper: one sequential pool operation keeps the pool size within
`maxConnections`. -/
theorem step_length (v : Nat → VRes) (maxC : Nat) (st : PoolState) (op : PoolOp)
    (h : st.conns.length ≤ maxC) : (step v maxC st op).conns.length ≤ maxC := by
  cases op with
  | acq =>
    have hs := scan_length_le v st.conns
    show ((acquireAux st maxC (scan v st.conns)).2).conns.length ≤ maxC
    rcases hsc : scan v st.conns with ⟨r, conns2⟩
    rw [hsc] at hs
    exact acquireAux_length st maxC r conns2 (le_trans hs h)
  | rel cid =>
    by_cases hw : st.waiting > 0 <;> simp [release, step, hw, h]

/-- Helper: a run of sequential operations keeps the pool size within
`maxConnections`. -/
theorem runOps_length (v : Nat → VRes) (maxC : Nat) (ops : List PoolOp) (st : PoolState)
    (h : st.conns.length ≤ maxC) : (runOps v maxC st ops).conns.length ≤ maxC := by
  induction ops generalizing st with
  | nil => simpa [runOps]
  | cons op rest ih =>
    have h1 := step_length v maxC st op h
    simpa [runOps, List.foldl_cons] using ih (step v maxC st op) h1

/-- Pool in which both resources of a two-resource pool are in use. -/
def c5capState : PoolState :=
  ⟨[⟨0, true⟩, ⟨1, true⟩], 0, 2⟩

/-- Claim C5 counterexample: the number of in-use resources is claimed
never to exceed `maxConnections` for every pool configuration.  With
`maxConnections = 1` and `minConnections = 2` (the constructor accepts
any `Partial<PoolOptions>` unvalidated), `initialize()` creates two
idle resources and two sequential `acquire` calls mark both in use:
two resources are in use although `maxConnections` is one. -/
theorem c5_inuse_exceeds_max :
    inUseCount (runOps (fun _ => VRes.valid) 1 (initPool 2) [.acq, .acq]) = 2 ∧
      ¬ inUseCount (runOps (fun _ => VRes.valid) 1 (initPool 2) [.acq, .acq]) ≤ 1 := by
  decide

/-- Claim C5 (amended): provided `minConnections ≤ maxConnections`,
after any sequence of non-overlapping `acquire`/`release` operations
from the initialized pool the number of in-use resources never exceeds
`maxConnections`; and an `acquire` whose scan finds no idle valid
resource while the pool holds at least `maxConnections` resources
enqueues the caller (to time out with the acquire-timeout error)
without creating a resource.  The original bound fails when
`minConnections > maxConnections`, and also under overlapping acquires,
whose pool-size check precedes the awaited factory call. -/
theorem c5_sequential_inuse_bounded (v : Nat → VRes) (maxC minC : Nat) (ops : List PoolOp)
    (h : minC ≤ maxC) :
    inUseCount (runOps v maxC (initPool minC) ops) ≤ maxC ∧
      ∀ st : PoolState, (scan v st.conns).1 = none →
        maxC ≤ (scan v st.conns).2.length →
        (acquire v maxC st).1 = AcqResult.enqueued ∧
          (acquire v maxC st).2.conns = (scan v st.conns).2 ∧
          (acquire v maxC st).2.waiting = st.waiting + 1 := by
  constructor
  · have h0 : (initPool minC).conns.length ≤ maxC := by
      simpa [initPool] using h
    have hlen := runOps_length v maxC ops (initPool minC) h0
    calc inUseCount (runOps v maxC (initPool minC) ops)
        ≤ (runOps v maxC (initPool minC) ops).conns.length := by
          simpa [inUseCount] using List.length_filter_le _ _
      _ ≤ maxC := hlen
  · intro st hnone hfull
    rcases hsc : scan v st.conns with ⟨r, conns2⟩
    rw [hsc] at hnone hfull
    simp only at hnone hfull
    subst hnone
    have hnl : ¬ conns2.length < maxC := by omega
    unfold acquire
    rw [hsc]
    simp [acquireAux, hnl]

/-- Witness for the amended C5 theorem: `minConnections = 1`,
`maxConnections = 2`, three sequential acquires stay within the bound,
and from the saturated pool `c5capState` a further acquire is
enqueued. -/
theorem c5_sequential_inuse_bounded_witness :
    inUseCount (runOps (fun _ => VRes.valid) 2 (initPool 1) [.acq, .acq, .acq]) ≤ 2 ∧
      (acquire (fun _ => VRes.valid) 2 c5capState).1 = AcqResult.enqueued :=
  ⟨(c5_sequential_inuse_bounded (fun _ => VRes.valid) 2 1 [.acq, .acq, .acq]
      (by decide)).1,
    ((c5_sequential_inuse_bounded (fun _ => VRes.valid) 2 1 [] (by decide)).2
      c5capState rfl (by decide)).1⟩

/-- Pool holding one idle resource (id 0) whose validator resolves
`false`. -/
def c6state : PoolState :=
  ⟨[⟨0, false⟩], 0, 1⟩

/-- Validator that judges every resource invalid by resolving `false`. -/
def c6validator : Nat → VRes := fun _ => VRes.invalid

/-- Claim C6 counterexample: every idle resource found invalid during
an acquire scan is claimed to be evicted immediately.  On `c6state`
(one idle resource whose validator resolves `false`,
`maxConnections = 2`), `acquire` scans resource 0, finds it invalid,
skips it and creates a new resource — but resource 0 is still in the
pool afterwards: only a validator that rejects triggers the `catch`
that deletes a resource. -/
theorem c6_invalid_resource_not_evicted :
    (acquire c6validator 2 c6state).1 = AcqResult.acquired 1 ∧
      PoolConn.mk 0 false ∈ (acquire c6validator 2 c6state).2.conns := by
  decide

/-- Claim C6 (amended): the acquire scan validates each idle resource
before handing it out and never returns one the validator judged
invalid — a scan that returns a resource got `valid` for it from the
validator.  But only a resource whose validation rejects is evicted;
one for which the validator resolves `false` is skipped and remains in
the pool: a full scan that acquires nothing leaves exactly the in-use
resources and the idle ones whose validation did not reject. -/
theorem c6_scan_never_returns_invalid (v : Nat → VRes) (l : List PoolConn) :
    (∀ cid, (scan v l).1 = some cid → v cid = VRes.valid) ∧
      ((scan v l).1 = none →
        (scan v l).2 = l.filter (fun c => c.inUse || !(isThrow (v c.cid)))) := by
  induction l with
  | nil => simp [scan]
  | cons c rest ih =>
    cases hc : c.inUse with
    | true =>
      constructor
      · intro cid hcid
        simp only [scan, hc, if_true] at hcid
        exact ih.1 cid hcid
      · intro hn
        simp only [scan, hc, if_true] at hn ⊢
        simp [List.filter_cons, hc, ih.2 hn]
    | false =>
      cases hv : v c.cid with
      | valid =>
        constructor
        · intro cid hcid
          simp [scan, hc, hv] at hcid
          rw [← hcid]
          exact hv
        · intro hn
          simp [scan, hc, hv] at hn
      | invalid =>
        constructor
        · intro cid hcid
          simp [scan, hc, hv] at hcid
          exact ih.1 cid hcid
        · intro hn
          simp only [scan, hc] at hn ⊢
          simp only [hv] at hn ⊢
          simp [List.filter_cons, hc, hv, isThrow, ih.2 hn]
      | vthrow =>
        constructor
        · intro cid hcid
          simp [scan, hc, hv] at hcid
          exact ih.1 cid hcid
        · intro hn
          simp only [scan, hc] at hn ⊢
          simp only [hv] at hn ⊢
          simp [List.filter_cons, hc, hv, isThrow, ih.2 hn]

/-- Witness for the amended C6 theorem: a scan that acquires resource 5
had `valid` from the validator for it, and a full scan over an
invalid-by-`false` resource (kept) and a rejecting resource (evicted)
leaves exactly the former. -/
theorem c6_scan_never_returns_invalid_witness :
    (fun _ : Nat => VRes.valid) 5 = VRes.valid ∧
      (scan (fun n => if n = 0 then VRes.invalid else VRes.vthrow)
        [⟨0, false⟩, ⟨1, false⟩]).2 = [⟨0, false⟩] :=
  ⟨(c6_scan_never_returns_invalid (fun _ => VRes.valid) [⟨5, false⟩]).1 5 rfl,
    ((c6_scan_never_returns_invalid (fun n => if n = 0 then VRes.invalid else VRes.vthrow)
      [⟨0, false⟩, ⟨1, false⟩]).2 rfl).trans (by decide)⟩

end ConnectionPool

namespace Modbus

open JsMap

/-- The `ModbusAdapter` fields the claims touch: the connection flag
(`isConnected()` is `connectionStatus === connected && socket !== null`,
collapsed to one boolean), the `subscriptions` map (address to its
`setInterval` timer handle), the `subscriptionCallbacks` map (address
to its single stored callback — the source keeps one `DataCallback`
per address, not a list), a supply of timer handles, and the `metrics`
counters. -/
structure MState where
  connected : Bool
  subscriptions : Table Nat
  subscriptionCallbacks : Table Nat
  nextTimer : Nat
  readCount : Nat
  writeCount : Nat
  errorCount : Nat
  totalLatency : Nat
  lastLatency : Nat
deriving DecidableEq

/-- `ModbusAdapter.subscribe(address, callback)`: throw
`Already subscribed to address` if the subscriptions map already has
the address; otherwise store the callback (overwriting — one callback
per address), create a polling timer and store its handle. -/
def subscribe (st : MState) (address : String) (cb : Nat) : Except String MState :=
  if (lookup st.subscriptions address).isSome then
    .error ("Already subscribed to " ++ address)
  else
    .ok { st with
      subscriptionCallbacks := setEntry st.subscriptionCallbacks address cb,
      subscriptions := setEntry st.subscriptions address st.nextTimer,
      nextTimer := st.nextTimer + 1 }

/-- `ModbusAdapter.unsubscribe(address)`: if a timer exists for the
address, clear it and delete both map entries; otherwise do nothing. -/
def unsubscribe (st : MState) (address : String) : MState :=
  match lookup st.subscriptions address with
  | none => st
  | some _ =>
    { st with
      subscriptions := removeEntry st.subscriptions address,
      subscriptionCallbacks := removeEntry st.subscriptionCallbacks address }

/-- A connected adapter with no subscriptions and zeroed metrics. -/
def m0 : MState := ⟨true, [], [], 0, 0, 0, 0, 0, 0⟩

/-- The adapter `m0` after `subscribe(t1, callback 1)`: timer 0 and
callback 1 stored for `t1`. -/
def m1 : MState := ⟨true, [("t1", 0)], [("t1", 1)], 1, 0, 0, 0, 0, 0⟩

/-- Claim C8 counterexample: subscribing a second callback to an
already-subscribed address is claimed to succeed and attach it.  After
`subscribe(t1, callback 1)` reached state `m1`, a second
`subscribe(t1, callback 2)` throws `Already subscribed to t1` and the
callback map still holds only callback 1 — the adapter keeps a single
callback per address and has no way to attach a second one. -/
theorem c8_second_subscribe_throws :
    subscribe m0 "t1" 1 = .ok m1 ∧
      subscribe m1 "t1" 2 = .error ("Already subscribed to " ++ "t1") ∧
      lookup m1.subscriptionCallbacks "t1" = some 1 :=
  ⟨rfl, rfl, rfl⟩

/-- Claim C8 (amended): at most one polling timer and exactly one
stored callback exist per address — a first `subscribe` for an address
stores one timer and that callback; a second `subscribe` for the same
address throws `Already subscribed` and attaches nothing; `unsubscribe`
on a subscribed address tears down the timer and the callback together;
`unsubscribe` on an unsubscribed address is a no-op. -/
theorem c8_one_callback_one_timer_per_address (st : MState) (address : String) (cb : Nat) :
    ((lookup st.subscriptions address).isSome →
        subscribe st address cb = .error ("Already subscribed to " ++ address)) ∧
      (lookup st.subscriptions address = none →
        ∃ st2, subscribe st address cb = .ok st2 ∧
          lookup st2.subscriptions address = some st.nextTimer ∧
          lookup st2.subscriptionCallbacks address = some cb) ∧
      ((lookup st.subscriptions address).isSome →
        lookup (unsubscribe st address).subscriptions address = none ∧
          lookup (unsubscribe st address).subscriptionCallbacks address = none) ∧
      (lookup st.subscriptions address = none → unsubscribe st address = st) := by
  refine ⟨?_, ?_, ?_, ?_⟩
  · intro hs
    simp [subscribe, hs]
  · intro hn
    refine ⟨{ st with
      subscriptionCallbacks := setEntry st.subscriptionCallbacks address cb,
      subscriptions := setEntry st.subscriptions address st.nextTimer,
      nextTimer := st.nextTimer + 1 }, ?_, ?_, ?_⟩
    · simp [subscribe, hn]
    · exact lookup_setEntry_self st.subscriptions address st.nextTimer
    · exact lookup_setEntry_self st.subscriptionCallbacks address cb
  · intro hs
    obtain ⟨timer, ht⟩ := Option.isSome_iff_exists.mp hs
    constructor
    · simp only [unsubscribe, ht]
      exact lookup_removeEntry st.subscriptions address
    · simp only [unsubscribe, ht]
      exact lookup_removeEntry st.subscriptionCallbacks address
  · intro hn
    simp [unsubscribe, hn]

/-- Witness for the amended C8 theorem at the concrete states `m0`
and `m1`. -/
theorem c8_one_callback_one_timer_per_address_witness :
    subscribe m1 "t1" 2 = .error ("Already subscribed to " ++ "t1") ∧
      (∃ st2, subscribe m0 "t1" 1 = .ok st2 ∧
        lookup st2.subscriptions "t1" = some m0.nextTimer ∧
        lookup st2.subscriptionCallbacks "t1" = some 1) ∧
      (lookup (unsubscribe m1 "t1").subscriptions "t1" = none ∧
        lookup (unsubscribe m1 "t1").subscriptionCallbacks "t1" = none) ∧
      unsubscribe m0 "t1" = m0 :=
  ⟨(c8_one_callback_one_timer_per_address m1 "t1" 2).1 rfl,
    (c8_one_callback_one_timer_per_address m0 "t1" 1).2.1 rfl,
    (c8_one_callback_one_timer_per_address m1 "t1" 2).2.2.1 rfl,
    (c8_one_callback_one_timer_per_address m0 "t1" 1).2.2.2 rfl⟩

/-- `ModbusAdapter.read(address)`: throw `Not connected to device`
when not connected (metrics untouched); otherwise issue the matching
client read (`client` gives the awaited modbus call's outcome per
address, `lat` the elapsed time the source measures with `Date.now()`):
on success bump `readCount` and record the latency, on failure bump
only `errorCount` and rethrow the client's error. -/
def adapterRead (client : String → Except String Nat) (lat : Nat) (st : MState)
    (address : String) : Except String Nat × MState :=
  if st.connected then
    match client address with
    | .ok v =>
      (.ok v, { st with
        readCount := st.readCount + 1,
        lastLatency := lat,
        totalLatency := st.totalLatency + lat })
    | .error e => (.error e, { st with errorCount := st.errorCount + 1 })
  else (.error "Not connected to device", st)

/-- Claim C9 counterexample: `read` is claimed to bump `readCount` on
every attempt, success or failure.  On the connected adapter `m0` a
read whose underlying client call fails leaves `readCount` at 0 and
`lastLatency` unrecorded; only `errorCount` is bumped. -/
theorem c9_failed_read_does_not_count :
    (adapterRead (fun _ => .error "read timeout") 5 m0 "HR:0").2.readCount = 0 ∧
      (adapterRead (fun _ => .error "read timeout") 5 m0 "HR:0").2.errorCount = 1 ∧
      (adapterRead (fun _ => .error "read timeout") 5 m0 "HR:0").2.lastLatency = 0 ∧
      (adapterRead (fun _ => .error "read timeout") 5 m0 "HR:0").2.readCount ≠
        m0.readCount + 1 := by
  decide

/-- Claim C9 (amended): on a connected adapter, `read` bumps
`readCount` and records the latency only when the underlying client
read succeeds; a failing read bumps `errorCount` alone, leaving
`readCount` and the latency untouched, and rethrows the client's
error. -/
theorem c9_metrics_only_on_success (client : String → Except String Nat) (lat : Nat)
    (st : MState) (address : String) (h : st.connected = true) :
    (∀ v, client address = .ok v →
        (adapterRead client lat st address).2.readCount = st.readCount + 1 ∧
          (adapterRead client lat st address).2.lastLatency = lat ∧
          (adapterRead client lat st address).2.errorCount = st.errorCount) ∧
      (∀ e, client address = .error e →
        (adapterRead client lat st address).2.readCount = st.readCount ∧
          (adapterRead client lat st address).2.lastLatency = st.lastLatency ∧
          (adapterRead client lat st address).2.errorCount = st.errorCount + 1 ∧
          (adapterRead client lat st address).1 = .error e) := by
  constructor
  · intro v hv
    simp [adapterRead, h, hv]
  · intro e he
    simp [adapterRead, h, he]

/-- Witness for the amended C9 theorem at `m0`, for one succeeding and
one failing client read. -/
theorem c9_metrics_only_on_success_witness :
    ((adapterRead (fun _ => .ok 42) 5 m0 "HR:0").2.readCount = m0.readCount + 1 ∧
        (adapterRead (fun _ => .ok 42) 5 m0 "HR:0").2.lastLatency = 5 ∧
        (adapterRead (fun _ => .ok 42) 5 m0 "HR:0").2.errorCount = m0.errorCount) ∧
      ((adapterRead (fun _ => .error "boom") 5 m0 "HR:0").2.readCount = m0.readCount ∧
        (adapterRead (fun _ => .error "boom") 5 m0 "HR:0").2.lastLatency = m0.lastLatency ∧
        (adapterRead (fun _ => .error "boom") 5 m0 "HR:0").2.errorCount = m0.errorCount + 1 ∧
        (adapterRead (fun _ => .error "boom") 5 m0 "HR:0").1 = .error "boom") :=
  ⟨(c9_metrics_only_on_success (fun _ => .ok 42) 5 m0 "HR:0" rfl).1 42 rfl,
    (c9_metrics_only_on_success (fun _ => .error "boom") 5 m0 "HR:0" rfl).2 "boom" rfl⟩

/-- The polling interval `subscribe` passes to `setInterval`:
`options?.interval || 1000`, so an absent or zero option falls back to
1000 ms. -/
def effInterval : Option Nat → Nat
  | some n => if n = 0 then 1000 else n
  | none => 1000

/-- Time at which `setInterval` fires tick `k`: the timer fires every
`interval` milliseconds starting one interval after `subscribe`,
regardless of what earlier ticks are doing — the `async` tick callback
is not awaited by the timer. -/
def tickStart (interval k : Nat) : Nat := (k + 1) * interval

/-- Tick `k`'s read is in flight at time `t`: issued at `tickStart`
and completing after `dur k` time units (`dur` gives each tick's read
duration, an environment input). -/
def inFlight (interval : Nat) (dur : Nat → Nat) (k t : Nat) : Prop :=
  tickStart interval k ≤ t ∧ t < tickStart interval k + dur k

/-- Two distinct ticks of one poll subscription have reads in flight
at the same moment. -/
def ticksOverlap (interval : Nat) (dur : Nat → Nat) (k m : Nat) : Prop :=
  k ≠ m ∧ ∃ t, inFlight interval dur k t ∧ inFlight interval dur m t

/-- Claim C10 counterexample: successive poll ticks are claimed never
to issue reads concurrently.  With the subscription interval 100 ms and
reads taking 250 ms, tick 0's read (in flight 100–350) is still
running when `setInterval` fires tick 1 at 200: at time 200 both reads
are in flight, because the timer never waits for the previous tick's
read to complete. -/
theorem c10_slow_reads_overlap :
    ticksOverlap (effInterval (some 100)) (fun _ => 250) 0 1 :=
  ⟨by decide, 200, ⟨by decide, by decide⟩, ⟨by decide, by decide⟩⟩

/-- Helper: when every read finishes within one interval, a later
tick starts only after an earlier tick's read has completed. -/
theorem inFlight_disjoint_of_lt (interval : Nat) (dur : Nat → Nat)
    (hd : ∀ k, dur k ≤ interval) (k m t : Nat) (hkm : k < m)
    (h1 : inFlight interval dur k t) (h2 : inFlight interval dur m t) : False := by
  obtain ⟨h1a, h1b⟩ := h1
  obtain ⟨h2a, h2b⟩ := h2
  have h5 : tickStart interval k + dur k ≤ tickStart interval m := by
    unfold tickStart
    calc (k + 1) * interval + dur k
        ≤ (k + 1) * interval + interval := by
          have := hd k
          omega
      _ = (k + 2) * interval := by ring
      _ ≤ (m + 1) * interval := Nat.mul_le_mul_right interval (by omega)
  have : t < t := lt_of_lt_of_le h1b (le_trans h5 h2a)
  exact lt_irrefl t this

/-- Claim C10 (amended): `setInterval` fires each tick on schedule
whether or not the previous tick's read has completed, so reads that
outlast the interval overlap; but when every read's duration is at
most the polling interval, no two ticks of the subscription ever have
reads in flight concurrently. -/
theorem c10_no_overlap_when_reads_fit (interval : Nat) (dur : Nat → Nat)
    (hd : ∀ k, dur k ≤ interval) (k m : Nat) :
    ¬ ticksOverlap interval dur k m := by
  rintro ⟨hne, t, h1, h2⟩
  rcases Nat.lt_or_ge k m with hkm | hge
  · exact inFlight_disjoint_of_lt interval dur hd k m t hkm h1 h2
  · have hmk : m < k := lt_of_le_of_ne hge (fun h => hne h.symm)
    exact inFlight_disjoint_of_lt interval dur hd m k t hmk h2 h1

/-- Witness for the amended C10 theorem: interval 100 ms, every read
taking 50 ms, ticks 0 and 1 never overlap. -/
theorem c10_no_overlap_when_reads_fit_witness :
    ¬ ticksOverlap 100 (fun _ => 50) 0 1 :=
  c10_no_overlap_when_reads_fit 100 (fun _ => 50) (by intro k; norm_num) 0 1

end Modbus
